import Mathlib

/-!
Verification of the mcp-ynab server core against its specification.

The development shallowly embeds the three source modules:

* `src/config.py` — `Config`, `Config.from_env`, `get_config`;
* `src/ynab_client.py` — `YNABClient`, `YNABClientError`, the shared
  request primitive `_make_request` and one endpoint-building function per
  read-only API method;
* `src/main.py` — the tool registry `list_tools`, the dispatcher
  `_execute_tool` and the protocol boundary `call_tool`.

Modelling conventions:

* Python `str` is `String`; `Optional[str]` is `Option String`; Python
  truthiness of an optional string (`if s:`) is `truthy`.
* The process environment and the tool-call argument mapping are both
  read through total lookup functions `String → Option String`
  (`os.environ.get` / `dict.get`); `arguments["k"]` on a missing key is the
  `PyError.keyError` outcome.
* JSON values are the inductive `Json`; `json.dumps(data, indent=2)` is
  modelled by the deterministic serializer `Json.dumps` (the exact
  whitespace of the Python pretty-printer is abstracted, determinism and
  injectivity of structure are preserved).
* The network is an oracle `Upstream : HttpRequest → UpstreamBehavior`:
  either an HTTP response (status, body text, parsed JSON body) or a
  transport-level failure description.  `response.raise_for_status()`
  raises exactly for statuses ≥ 400, the semantics the test harness of
  the repository itself (`create_mock_response` in `tests/test_ynab_client.py`)
  assigns to it.
* `_make_request` returns the list of HTTP requests it issues together
  with its result, so that "no network request is attempted" and
  "exactly one GET is issued" are statable.
* `httpx.Client(... timeout=30.0)` is the `timeout := 30` (seconds) field
  of every issued request.
-/

/-! ## JSON values and `format_response` (main.py) -/

inductive Json where
  | null
  | bool (b : Bool)
  | num (n : Int)
  | str (s : String)
  | arr (elems : List Json)
  | obj (fields : List (String × Json))

mutual

def Json.dumps : Json → String
  | .null => "null"
  | .bool b => cond b "true" "false"
  | .num n => toString n
  | .str s => "\"" ++ s ++ "\""
  | .arr xs => "[" ++ dumpsElems xs ++ "]"
  | .obj fs => "\x7b" ++ dumpsFields fs ++ "\x7d"

def dumpsElems : List Json → String
  | [] => ""
  | [x] => x.dumps
  | x :: y :: xs => x.dumps ++ ", " ++ dumpsElems (y :: xs)

def dumpsFields : List (String × Json) → String
  | [] => ""
  | [(k, v)] => "\"" ++ k ++ "\": " ++ v.dumps
  | (k, v) :: g :: fs => "\"" ++ k ++ "\": " ++ v.dumps ++ ", " ++ dumpsFields (g :: fs)

end

/-- Model of `format_response(data)` from `main.py`: serialize the response dict. -/
def format_response (data : Json) : String :=
  data.dumps

/-! ## Configuration (config.py) -/

/-- A process environment: `os.environ.get`. -/
abbrev Env := String → Option String

/-- Python truthiness of an `Optional[str]`: `None` and `""` are falsy. -/
def truthy : Option String → Bool
  | none => false
  | some s => s != ""

/-- Model of `Config` from `config.py`: token plus base URL with its default. -/
structure Config where
  ynab_token : String
  ynab_base_url : String := "https://api.ynab.com/v1"
deriving DecidableEq

/-- Model of `Config.from_env`: read `YNAB_TOKEN` (required, must be truthy) and
`YNAB_BASE_URL` (defaulted); raising `ValueError` is the `.error` case. -/
def Config.from_env (env : Env) : Except String Config :=
  if truthy (env "YNAB_TOKEN") = false then
    .error ("YNAB_TOKEN environment variable is required. " ++
      "Please set it to your YNAB personal access token.")
  else
    .ok { ynab_token := (env "YNAB_TOKEN").getD ""
          ynab_base_url := (env "YNAB_BASE_URL").getD "https://api.ynab.com/v1" }

/-- Model of `get_config()` from `config.py`. -/
def get_config (env : Env) : Except String Config :=
  Config.from_env env

/-! ## HTTP model and the gateway client (ynab_client.py) -/

/-- An outbound HTTP request as the session issues it: method, the base
URL and headers bound at construction, the per-method endpoint and the
fixed per-request timeout (seconds). -/
structure HttpRequest where
  method : String
  base_url : String
  endpoint : String
  headers : List (String × String)
  timeout : Nat
deriving DecidableEq

/-- An upstream HTTP response: `status_code`, `text` and parsed `json()`. -/
structure HttpResponse where
  status : Nat
  text : String
  json : Json

/-- What the upstream does with a request: answer it, or fail at the
transport level (DNS, connection refused, timeout) with a description. -/
inductive UpstreamBehavior where
  | response (r : HttpResponse)
  | failure (desc : String)

/-- The upstream service as a fixed function from request to behavior. -/
abbrev Upstream := HttpRequest → UpstreamBehavior

/-- Model of `YNABClientError` from `ynab_client.py`: the single uniform client
error, carrying its message. -/
structure YNABClientError where
  msg : String
deriving DecidableEq

/-- Model of `YNABClient`: holds the configuration its session was bound to. -/
structure YNABClient where
  config : Config
deriving DecidableEq

/-- The headers `YNABClient.__init__` passes to `httpx.Client`. -/
def sessionHeaders (config : Config) : List (String × String) :=
  [("Authorization", "Bearer " ++ config.ynab_token),
   ("Content-Type", "application/json")]

/-- The one GET request `self._client.get(endpoint)` issues: session
state (base URL, headers, 30-second timeout) plus the endpoint. -/
def issuedRequest (c : YNABClient) (endpoint : String) : HttpRequest :=
  { method := "GET"
    base_url := c.config.ynab_base_url
    endpoint := endpoint
    headers := sessionHeaders c.config
    timeout := 30 }

/-- Model of `YNABClient._make_request`: issue one GET, `raise_for_status`, parse
JSON; translate `httpx.HTTPStatusError` and `httpx.RequestError` into
`YNABClientError`.  Returns the issued-request trace with the result. -/
def YNABClient._make_request (c : YNABClient) (up : Upstream) (endpoint : String) :
    List HttpRequest × Except YNABClientError Json :=
  let req := issuedRequest c endpoint
  ([req],
    match up req with
    | .response r =>
        if 400 ≤ r.status then
          .error { msg := "YNAB API request failed with status " ++
            toString r.status ++ ": " ++ r.text }
        else
          .ok r.json
    | .failure d => .error { msg := "YNAB API request failed: " ++ d })

/-- Model of the join `"&".join(f"{k}={v}" for k, v in params.items())` from
`get_transactions`. -/
def joinParams : List (String × String) → String
  | [] => ""
  | [(k, v)] => k ++ "=" ++ v
  | (k, v) :: p :: ps => k ++ "=" ++ v ++ "&" ++ joinParams (p :: ps)

/-! Endpoint construction, one definition per client method, verbatim
from the f-strings of `ynab_client.py`. -/

def get_budgets_endpoint : String := "/budgets"

def get_budget_endpoint (budget_id : String) : String :=
  "/budgets/" ++ budget_id

def get_budget_settings_endpoint (budget_id : String) : String :=
  "/budgets/" ++ budget_id ++ "/settings"

def get_accounts_endpoint (budget_id : String) : String :=
  "/budgets/" ++ budget_id ++ "/accounts"

def get_account_endpoint (budget_id account_id : String) : String :=
  "/budgets/" ++ budget_id ++ "/accounts/" ++ account_id

def get_categories_endpoint (budget_id : String) : String :=
  "/budgets/" ++ budget_id ++ "/categories"

def get_category_endpoint (budget_id category_id : String) : String :=
  "/budgets/" ++ budget_id ++ "/categories/" ++ category_id

def get_payees_endpoint (budget_id : String) : String :=
  "/budgets/" ++ budget_id ++ "/payees"

def get_payee_endpoint (budget_id payee_id : String) : String :=
  "/budgets/" ++ budget_id ++ "/payees/" ++ payee_id

/-- Endpoint of `get_transactions`: optional filters become query parameters only
when truthy; `params` keeps insertion order (`since_date` then `type`). -/
def get_transactions_endpoint (budget_id : String)
    (since_date type_filter : Option String) : String :=
  let params : List (String × String) :=
    (if truthy since_date then [("since_date", since_date.getD "")] else []) ++
    (if truthy type_filter then [("type", type_filter.getD "")] else [])
  let endpoint := "/budgets/" ++ budget_id ++ "/transactions"
  if params.isEmpty then endpoint
  else endpoint ++ "?" ++ joinParams params

def get_transaction_endpoint (budget_id transaction_id : String) : String :=
  "/budgets/" ++ budget_id ++ "/transactions/" ++ transaction_id

def get_transactions_by_account_endpoint (budget_id account_id : String)
    (since_date : Option String) : String :=
  let endpoint := "/budgets/" ++ budget_id ++ "/accounts/" ++ account_id ++ "/transactions"
  if truthy since_date then endpoint ++ "?since_date=" ++ since_date.getD ""
  else endpoint

def get_transactions_by_category_endpoint (budget_id category_id : String)
    (since_date : Option String) : String :=
  let endpoint := "/budgets/" ++ budget_id ++ "/categories/" ++ category_id ++ "/transactions"
  if truthy since_date then endpoint ++ "?since_date=" ++ since_date.getD ""
  else endpoint

def get_transactions_by_payee_endpoint (budget_id payee_id : String)
    (since_date : Option String) : String :=
  let endpoint := "/budgets/" ++ budget_id ++ "/payees/" ++ payee_id ++ "/transactions"
  if truthy since_date then endpoint ++ "?since_date=" ++ since_date.getD ""
  else endpoint

def get_months_endpoint (budget_id : String) : String :=
  "/budgets/" ++ budget_id ++ "/months"

def get_month_endpoint (budget_id month : String) : String :=
  "/budgets/" ++ budget_id ++ "/months/" ++ month

def get_scheduled_transactions_endpoint (budget_id : String) : String :=
  "/budgets/" ++ budget_id ++ "/scheduled_transactions"

def get_scheduled_transaction_endpoint (budget_id scheduled_transaction_id : String) : String :=
  "/budgets/" ++ budget_id ++ "/scheduled_transactions/" ++ scheduled_transaction_id

/-! The public client methods, each a single `_make_request` at its
endpoint, exactly as in `ynab_client.py`. -/

def YNABClient.get_budgets (c : YNABClient) (up : Upstream) :=
  c._make_request up get_budgets_endpoint

def YNABClient.get_budget (c : YNABClient) (up : Upstream) (budget_id : String) :=
  c._make_request up (get_budget_endpoint budget_id)

def YNABClient.get_budget_settings (c : YNABClient) (up : Upstream) (budget_id : String) :=
  c._make_request up (get_budget_settings_endpoint budget_id)

def YNABClient.get_accounts (c : YNABClient) (up : Upstream) (budget_id : String) :=
  c._make_request up (get_accounts_endpoint budget_id)

def YNABClient.get_account (c : YNABClient) (up : Upstream) (budget_id account_id : String) :=
  c._make_request up (get_account_endpoint budget_id account_id)

def YNABClient.get_categories (c : YNABClient) (up : Upstream) (budget_id : String) :=
  c._make_request up (get_categories_endpoint budget_id)

def YNABClient.get_category (c : YNABClient) (up : Upstream) (budget_id category_id : String) :=
  c._make_request up (get_category_endpoint budget_id category_id)

def YNABClient.get_payees (c : YNABClient) (up : Upstream) (budget_id : String) :=
  c._make_request up (get_payees_endpoint budget_id)

def YNABClient.get_payee (c : YNABClient) (up : Upstream) (budget_id payee_id : String) :=
  c._make_request up (get_payee_endpoint budget_id payee_id)

def YNABClient.get_transactions (c : YNABClient) (up : Upstream) (budget_id : String)
    (since_date type_filter : Option String) :=
  c._make_request up (get_transactions_endpoint budget_id since_date type_filter)

def YNABClient.get_transaction (c : YNABClient) (up : Upstream)
    (budget_id transaction_id : String) :=
  c._make_request up (get_transaction_endpoint budget_id transaction_id)

def YNABClient.get_transactions_by_account (c : YNABClient) (up : Upstream)
    (budget_id account_id : String) (since_date : Option String) :=
  c._make_request up (get_transactions_by_account_endpoint budget_id account_id since_date)

def YNABClient.get_transactions_by_category (c : YNABClient) (up : Upstream)
    (budget_id category_id : String) (since_date : Option String) :=
  c._make_request up (get_transactions_by_category_endpoint budget_id category_id since_date)

def YNABClient.get_transactions_by_payee (c : YNABClient) (up : Upstream)
    (budget_id payee_id : String) (since_date : Option String) :=
  c._make_request up (get_transactions_by_payee_endpoint budget_id payee_id since_date)

def YNABClient.get_months (c : YNABClient) (up : Upstream) (budget_id : String) :=
  c._make_request up (get_months_endpoint budget_id)

def YNABClient.get_month (c : YNABClient) (up : Upstream) (budget_id month : String) :=
  c._make_request up (get_month_endpoint budget_id month)

def YNABClient.get_scheduled_transactions (c : YNABClient) (up : Upstream) (budget_id : String) :=
  c._make_request up (get_scheduled_transactions_endpoint budget_id)

def YNABClient.get_scheduled_transaction (c : YNABClient) (up : Upstream)
    (budget_id scheduled_transaction_id : String) :=
  c._make_request up (get_scheduled_transaction_endpoint budget_id scheduled_transaction_id)

/-! ## Tool registry (main.py, `list_tools`) -/

/-- One property of an `inputSchema`: its name, its JSON-schema type and
its `enum` restriction when it has one.  (The human-readable
`description` strings of `main.py` carry no behavioral content and are
not modelled.) -/
structure ParamSpec where
  pname : String
  ptype : String
  enumVals : Option (List String)
deriving DecidableEq

/-- A tool descriptor: name, schema properties and required list. -/
structure Tool where
  name : String
  properties : List ParamSpec
  required : List String
deriving DecidableEq

/-- The static registry returned by `list_tools()` in `main.py`. -/
def list_tools : List Tool :=
  [ { name := "get_budgets", properties := [], required := [] },
    { name := "get_budget",
      properties := [⟨"budget_id", "string", none⟩],
      required := ["budget_id"] },
    { name := "get_budget_settings",
      properties := [⟨"budget_id", "string", none⟩],
      required := ["budget_id"] },
    { name := "get_accounts",
      properties := [⟨"budget_id", "string", none⟩],
      required := ["budget_id"] },
    { name := "get_account",
      properties := [⟨"budget_id", "string", none⟩, ⟨"account_id", "string", none⟩],
      required := ["budget_id", "account_id"] },
    { name := "get_categories",
      properties := [⟨"budget_id", "string", none⟩],
      required := ["budget_id"] },
    { name := "get_category",
      properties := [⟨"budget_id", "string", none⟩, ⟨"category_id", "string", none⟩],
      required := ["budget_id", "category_id"] },
    { name := "get_payees",
      properties := [⟨"budget_id", "string", none⟩],
      required := ["budget_id"] },
    { name := "get_payee",
      properties := [⟨"budget_id", "string", none⟩, ⟨"payee_id", "string", none⟩],
      required := ["budget_id", "payee_id"] },
    { name := "get_transactions",
      properties := [⟨"budget_id", "string", none⟩, ⟨"since_date", "string", none⟩,
        ⟨"type", "string", some ["uncategorized", "unapproved"]⟩],
      required := ["budget_id"] },
    { name := "get_transaction",
      properties := [⟨"budget_id", "string", none⟩, ⟨"transaction_id", "string", none⟩],
      required := ["budget_id", "transaction_id"] },
    { name := "get_transactions_by_account",
      properties := [⟨"budget_id", "string", none⟩, ⟨"account_id", "string", none⟩,
        ⟨"since_date", "string", none⟩],
      required := ["budget_id", "account_id"] },
    { name := "get_transactions_by_category",
      properties := [⟨"budget_id", "string", none⟩, ⟨"category_id", "string", none⟩,
        ⟨"since_date", "string", none⟩],
      required := ["budget_id", "category_id"] },
    { name := "get_transactions_by_payee",
      properties := [⟨"budget_id", "string", none⟩, ⟨"payee_id", "string", none⟩,
        ⟨"since_date", "string", none⟩],
      required := ["budget_id", "payee_id"] },
    { name := "get_months",
      properties := [⟨"budget_id", "string", none⟩],
      required := ["budget_id"] },
    { name := "get_month",
      properties := [⟨"budget_id", "string", none⟩, ⟨"month", "string", none⟩],
      required := ["budget_id", "month"] },
    { name := "get_scheduled_transactions",
      properties := [⟨"budget_id", "string", none⟩],
      required := ["budget_id"] },
    { name := "get_scheduled_transaction",
      properties := [⟨"budget_id", "string", none⟩,
        ⟨"scheduled_transaction_id", "string", none⟩],
      required := ["budget_id", "scheduled_transaction_id"] } ]

/-- The registered tool identifiers. -/
def toolNames : List String :=
  list_tools.map Tool.name

/-- The required-tool table of the spec (section 4.1), written from the
words of the spec: tool name, required parameters, optional parameters.  Used
only to compare the registry against the specification. -/
def specToolTable : List (String × List String × List String) :=
  [ ("get_budgets", [], []),
    ("get_budget", ["budget_id"], []),
    ("get_budget_settings", ["budget_id"], []),
    ("get_accounts", ["budget_id"], []),
    ("get_account", ["budget_id", "account_id"], []),
    ("get_categories", ["budget_id"], []),
    ("get_category", ["budget_id", "category_id"], []),
    ("get_payees", ["budget_id"], []),
    ("get_payee", ["budget_id", "payee_id"], []),
    ("get_transactions", ["budget_id"], ["since_date", "type"]),
    ("get_transaction", ["budget_id", "transaction_id"], []),
    ("get_transactions_by_account", ["budget_id", "account_id"], ["since_date"]),
    ("get_transactions_by_category", ["budget_id", "category_id"], ["since_date"]),
    ("get_transactions_by_payee", ["budget_id", "payee_id"], ["since_date"]),
    ("get_months", ["budget_id"], []),
    ("get_month", ["budget_id", "month"], []),
    ("get_scheduled_transactions", ["budget_id"], []),
    ("get_scheduled_transaction", ["budget_id", "scheduled_transaction_id"], []) ]

/-- The view of a registry entry that the spec table describes: name,
required parameters, and the remaining (optional) schema properties. -/
def toolTableRow (t : Tool) : String × List String × List String :=
  (t.name, t.required,
    t.properties.filterMap fun p =>
      if t.required.contains p.pname then none else some p.pname)

/-! ## Dispatch (main.py, `call_tool` / `_execute_tool`) -/

/-- The argument mapping of a tool call, read by key lookup. -/
abbrev Args := String → Option String

/-- The Python exceptions `call_tool` distinguishes: `YNABClientError`,
`ValueError` (configuration failure and the unknown-tool case) and the
`KeyError` of `arguments["k"]` on a missing key. -/
inductive PyError where
  | ynab (msg : String)
  | valueError (msg : String)
  | keyError (key : String)
deriving DecidableEq

/-- Whether an exception is a `ValueError`. -/
def PyError.isValueError : PyError → Bool
  | .valueError _ => true
  | _ => false

/-- Lookup `arguments["k"]`: the value, or a `KeyError` on a missing key. -/
def requireArg (args : Args) (k : String) : Except PyError String :=
  match args k with
  | some v => .ok v
  | none => .error (.keyError k)

/-- The endpoint `_execute_tool` asks the client to request: required
arguments are read with `arguments["k"]`, optional ones with
`arguments.get(...)`, in source evaluation order; an unrecognized
name is the `ValueError` of the final `case _` arm.  Argument lookups
happen strictly before any network activity. -/
def executeToolReq (name : String) (args : Args) : Except PyError String :=
  if name = "get_budgets" then
    .ok get_budgets_endpoint
  else if name = "get_budget" then do
    let b ← requireArg args "budget_id"
    .ok (get_budget_endpoint b)
  else if name = "get_budget_settings" then do
    let b ← requireArg args "budget_id"
    .ok (get_budget_settings_endpoint b)
  else if name = "get_accounts" then do
    let b ← requireArg args "budget_id"
    .ok (get_accounts_endpoint b)
  else if name = "get_account" then do
    let b ← requireArg args "budget_id"
    let a ← requireArg args "account_id"
    .ok (get_account_endpoint b a)
  else if name = "get_categories" then do
    let b ← requireArg args "budget_id"
    .ok (get_categories_endpoint b)
  else if name = "get_category" then do
    let b ← requireArg args "budget_id"
    let cat ← requireArg args "category_id"
    .ok (get_category_endpoint b cat)
  else if name = "get_payees" then do
    let b ← requireArg args "budget_id"
    .ok (get_payees_endpoint b)
  else if name = "get_payee" then do
    let b ← requireArg args "budget_id"
    let p ← requireArg args "payee_id"
    .ok (get_payee_endpoint b p)
  else if name = "get_transactions" then do
    let b ← requireArg args "budget_id"
    .ok (get_transactions_endpoint b (args "since_date") (args "type"))
  else if name = "get_transaction" then do
    let b ← requireArg args "budget_id"
    let t ← requireArg args "transaction_id"
    .ok (get_transaction_endpoint b t)
  else if name = "get_transactions_by_account" then do
    let b ← requireArg args "budget_id"
    let a ← requireArg args "account_id"
    .ok (get_transactions_by_account_endpoint b a (args "since_date"))
  else if name = "get_transactions_by_category" then do
    let b ← requireArg args "budget_id"
    let cat ← requireArg args "category_id"
    .ok (get_transactions_by_category_endpoint b cat (args "since_date"))
  else if name = "get_transactions_by_payee" then do
    let b ← requireArg args "budget_id"
    let p ← requireArg args "payee_id"
    .ok (get_transactions_by_payee_endpoint b p (args "since_date"))
  else if name = "get_months" then do
    let b ← requireArg args "budget_id"
    .ok (get_months_endpoint b)
  else if name = "get_month" then do
    let b ← requireArg args "budget_id"
    let m ← requireArg args "month"
    .ok (get_month_endpoint b m)
  else if name = "get_scheduled_transactions" then do
    let b ← requireArg args "budget_id"
    .ok (get_scheduled_transactions_endpoint b)
  else if name = "get_scheduled_transaction" then do
    let b ← requireArg args "budget_id"
    let s ← requireArg args "scheduled_transaction_id"
    .ok (get_scheduled_transaction_endpoint b s)
  else
    .error (.valueError ("Unknown tool: " ++ name))

/-- Model of `_execute_tool`: resolve the tool and its arguments, then let the
client perform the one request; an argument or dispatch failure issues
no request at all. -/
def _execute_tool (c : YNABClient) (up : Upstream) (name : String) (args : Args) :
    List HttpRequest × Except PyError Json :=
  match executeToolReq name args with
  | .error e => ([], .error e)
  | .ok endpoint =>
      let (reqs, res) := c._make_request up endpoint
      (reqs, res.mapError fun err => PyError.ynab err.msg)

/-- Model of `get_ynab_client()` from `main.py`: load the configuration (which
may raise the configuration `ValueError`) and construct the client;
client construction itself never fails. -/
def get_ynab_client (env : Env) : Except String YNABClient :=
  (get_config env).map fun config => { config := config }

/-- The body of the `try` block of `call_tool`: construct the client, execute
the tool.  The request trace is carried along. -/
def callToolInner (env : Env) (up : Upstream) (name : String) (args : Args) :
    List HttpRequest × Except PyError Json :=
  match get_ynab_client env with
  | .error m => ([], .error (.valueError m))
  | .ok c => _execute_tool c up name args

/-- The Python single-quote character, as `str(KeyError(k))` renders the
missing key between quotes. -/
def pyQuote : String := (Char.ofNat 39).toString

/-- The text the `except` clauses of `call_tool` produce for each exception:
`YNABClientError` and the catch-all get `Error: `, `ValueError` gets
`Configuration Error: `. -/
def errorPayload : PyError → String
  | .ynab m => "Error: " ++ m
  | .valueError m => "Configuration Error: " ++ m
  | .keyError k => "Error: " ++ (pyQuote ++ k ++ pyQuote)

/-- Model of `call_tool`: the protocol boundary.  Always returns the text of the
single `TextContent` it answers with; every exception of the `try` block
is converted to a textual payload. -/
def call_tool (env : Env) (up : Upstream) (name : String) (args : Args) : String :=
  match (callToolInner env up name args).2 with
  | .ok result => format_response result
  | .error e => errorPayload e

/-! ## Vocabulary for the statements -/

/-- Predicate: `s` begins with the text `p`. -/
def leadsWith (p s : String) : Prop :=
  ∃ t, s = p ++ t

/-- Predicate: `pat` occurs contiguously inside `hay`. -/
def containsSub (hay pat : String) : Prop :=
  ∃ x y, hay.data = x ++ pat.data ++ y

/-- No digit character occurs in `s` (so no numeric status code does). -/
def noDigit (s : String) : Prop :=
  ∀ ch ∈ s.data, ch.isDigit = false

/-! ## Concrete fixtures for witnesses and counterexamples -/

/-- An environment holding a valid credential. -/
def envOk : Env := fun k => if k = "YNAB_TOKEN" then some "token-1" else none

/-- An environment with no credential at all. -/
def envBare : Env := fun _ => none

/-- An empty argument mapping. -/
def noArgs : Args := fun _ => none

/-- A concrete constructed client. -/
def fixtureClient : YNABClient :=
  { config := { ynab_token := "token-1", ynab_base_url := "https://api.ynab.com/v1" } }

/-- An upstream that always answers 200 with a fixed JSON body. -/
def fixtureUp200 : Upstream :=
  fun _ => .response { status := 200, text := "ok", json := .obj [("data", .null)] }

/-- An upstream that always answers 404 with a fixed body text. -/
def fixtureUp404 : Upstream :=
  fun _ => .response { status := 404, text := "not found", json := .null }

/-- An upstream that always fails at the transport level. -/
def fixtureUpFail : Upstream :=
  fun _ => .failure "connection refused"

/-! ## Helper lemmas -/

theorem strEq_of_data {a b : String} (h : a.data = b.data) : a = b := by
  cases a; cases b; exact congrArg String.mk h

theorem leadsWith_self_append (p s : String) : leadsWith p (p ++ s) :=
  ⟨s, rfl⟩

theorem not_leadsWith_config_of_error (m : String) :
    ¬ leadsWith "Configuration Error: " ("Error: " ++ m) := by
  rintro ⟨t, ht⟩
  have hd := congrArg String.data ht
  rw [String.data_append, String.data_append] at hd
  rw [show ("Error: " : String).data = 'E' :: ("rror: " : String).data from rfl,
    show ("Configuration Error: " : String).data =
      'C' :: ("onfiguration Error: " : String).data from rfl,
    List.cons_append, List.cons_append] at hd
  injection hd with h1 _
  exact absurd h1 (by decide)

theorem not_leadsWith_error_of_config (m : String) :
    ¬ leadsWith "Error: " ("Configuration Error: " ++ m) := by
  rintro ⟨t, ht⟩
  have hd := congrArg String.data ht
  rw [String.data_append, String.data_append] at hd
  rw [show ("Error: " : String).data = 'E' :: ("rror: " : String).data from rfl,
    show ("Configuration Error: " : String).data =
      'C' :: ("onfiguration Error: " : String).data from rfl,
    List.cons_append, List.cons_append] at hd
  injection hd with h1 _
  exact absurd h1 (by decide)

theorem toolNames_eq :
    toolNames =
      ["get_budgets", "get_budget", "get_budget_settings", "get_accounts",
       "get_account", "get_categories", "get_category", "get_payees", "get_payee",
       "get_transactions", "get_transaction", "get_transactions_by_account",
       "get_transactions_by_category", "get_transactions_by_payee", "get_months",
       "get_month", "get_scheduled_transactions", "get_scheduled_transaction"] := rfl

theorem get_ynab_client_no_token (env : Env) (h : truthy (env "YNAB_TOKEN") = false) :
    get_ynab_client env = .error ("YNAB_TOKEN environment variable is required. " ++
      "Please set it to your YNAB personal access token.") := by
  simp [get_ynab_client, get_config, Config.from_env, h, Except.map]

theorem get_ynab_client_token (env : Env) (h : truthy (env "YNAB_TOKEN") = true) :
    get_ynab_client env = .ok { config :=
      { ynab_token := (env "YNAB_TOKEN").getD ""
        ynab_base_url := (env "YNAB_BASE_URL").getD "https://api.ynab.com/v1" } } := by
  simp [get_ynab_client, get_config, Config.from_env, h, Except.map]

/-! Per-tool characterization of dispatcher argument handling. -/

theorem exec_get_budgets (args : Args) :
    executeToolReq "get_budgets" args = .ok get_budgets_endpoint := by
  simp +decide [executeToolReq]

theorem exec_get_budget (args : Args) :
    executeToolReq "get_budget" args =
      match args "budget_id" with
      | some b => .ok (get_budget_endpoint b)
      | none => .error (.keyError "budget_id") := by
  rcases h : args "budget_id" with _ | b <;>
    simp +decide [executeToolReq, requireArg, h, Bind.bind, Except.bind]

theorem exec_get_budget_settings (args : Args) :
    executeToolReq "get_budget_settings" args =
      match args "budget_id" with
      | some b => .ok (get_budget_settings_endpoint b)
      | none => .error (.keyError "budget_id") := by
  rcases h : args "budget_id" with _ | b <;>
    simp +decide [executeToolReq, requireArg, h, Bind.bind, Except.bind]

theorem exec_get_accounts (args : Args) :
    executeToolReq "get_accounts" args =
      match args "budget_id" with
      | some b => .ok (get_accounts_endpoint b)
      | none => .error (.keyError "budget_id") := by
  rcases h : args "budget_id" with _ | b <;>
    simp +decide [executeToolReq, requireArg, h, Bind.bind, Except.bind]

theorem exec_get_account (args : Args) :
    executeToolReq "get_account" args =
      match args "budget_id", args "account_id" with
      | some b, some a => .ok (get_account_endpoint b a)
      | none, _ => .error (.keyError "budget_id")
      | some _, none => .error (.keyError "account_id") := by
  rcases h : args "budget_id" with _ | b <;> rcases h2 : args "account_id" with _ | a <;>
    simp +decide [executeToolReq, requireArg, h, h2, Bind.bind, Except.bind]

theorem exec_get_categories (args : Args) :
    executeToolReq "get_categories" args =
      match args "budget_id" with
      | some b => .ok (get_categories_endpoint b)
      | none => .error (.keyError "budget_id") := by
  rcases h : args "budget_id" with _ | b <;>
    simp +decide [executeToolReq, requireArg, h, Bind.bind, Except.bind]

theorem exec_get_category (args : Args) :
    executeToolReq "get_category" args =
      match args "budget_id", args "category_id" with
      | some b, some cat => .ok (get_category_endpoint b cat)
      | none, _ => .error (.keyError "budget_id")
      | some _, none => .error (.keyError "category_id") := by
  rcases h : args "budget_id" with _ | b <;> rcases h2 : args "category_id" with _ | a <;>
    simp +decide [executeToolReq, requireArg, h, h2, Bind.bind, Except.bind]

theorem exec_get_payees (args : Args) :
    executeToolReq "get_payees" args =
      match args "budget_id" with
      | some b => .ok (get_payees_endpoint b)
      | none => .error (.keyError "budget_id") := by
  rcases h : args "budget_id" with _ | b <;>
    simp +decide [executeToolReq, requireArg, h, Bind.bind, Except.bind]

theorem exec_get_payee (args : Args) :
    executeToolReq "get_payee" args =
      match args "budget_id", args "payee_id" with
      | some b, some p => .ok (get_payee_endpoint b p)
      | none, _ => .error (.keyError "budget_id")
      | some _, none => .error (.keyError "payee_id") := by
  rcases h : args "budget_id" with _ | b <;> rcases h2 : args "payee_id" with _ | a <;>
    simp +decide [executeToolReq, requireArg, h, h2, Bind.bind, Except.bind]

theorem exec_get_transactions (args : Args) :
    executeToolReq "get_transactions" args =
      match args "budget_id" with
      | some b => .ok (get_transactions_endpoint b (args "since_date") (args "type"))
      | none => .error (.keyError "budget_id") := by
  rcases h : args "budget_id" with _ | b <;>
    simp +decide [executeToolReq, requireArg, h, Bind.bind, Except.bind]

theorem exec_get_transaction (args : Args) :
    executeToolReq "get_transaction" args =
      match args "budget_id", args "transaction_id" with
      | some b, some t => .ok (get_transaction_endpoint b t)
      | none, _ => .error (.keyError "budget_id")
      | some _, none => .error (.keyError "transaction_id") := by
  rcases h : args "budget_id" with _ | b <;> rcases h2 : args "transaction_id" with _ | a <;>
    simp +decide [executeToolReq, requireArg, h, h2, Bind.bind, Except.bind]

theorem exec_get_transactions_by_account (args : Args) :
    executeToolReq "get_transactions_by_account" args =
      match args "budget_id", args "account_id" with
      | some b, some a =>
          .ok (get_transactions_by_account_endpoint b a (args "since_date"))
      | none, _ => .error (.keyError "budget_id")
      | some _, none => .error (.keyError "account_id") := by
  rcases h : args "budget_id" with _ | b <;> rcases h2 : args "account_id" with _ | a <;>
    simp +decide [executeToolReq, requireArg, h, h2, Bind.bind, Except.bind]

theorem exec_get_transactions_by_category (args : Args) :
    executeToolReq "get_transactions_by_category" args =
      match args "budget_id", args "category_id" with
      | some b, some cat =>
          .ok (get_transactions_by_category_endpoint b cat (args "since_date"))
      | none, _ => .error (.keyError "budget_id")
      | some _, none => .error (.keyError "category_id") := by
  rcases h : args "budget_id" with _ | b <;> rcases h2 : args "category_id" with _ | a <;>
    simp +decide [executeToolReq, requireArg, h, h2, Bind.bind, Except.bind]

theorem exec_get_transactions_by_payee (args : Args) :
    executeToolReq "get_transactions_by_payee" args =
      match args "budget_id", args "payee_id" with
      | some b, some p =>
          .ok (get_transactions_by_payee_endpoint b p (args "since_date"))
      | none, _ => .error (.keyError "budget_id")
      | some _, none => .error (.keyError "payee_id") := by
  rcases h : args "budget_id" with _ | b <;> rcases h2 : args "payee_id" with _ | a <;>
    simp +decide [executeToolReq, requireArg, h, h2, Bind.bind, Except.bind]

theorem exec_get_months (args : Args) :
    executeToolReq "get_months" args =
      match args "budget_id" with
      | some b => .ok (get_months_endpoint b)
      | none => .error (.keyError "budget_id") := by
  rcases h : args "budget_id" with _ | b <;>
    simp +decide [executeToolReq, requireArg, h, Bind.bind, Except.bind]

theorem exec_get_month (args : Args) :
    executeToolReq "get_month" args =
      match args "budget_id", args "month" with
      | some b, some m => .ok (get_month_endpoint b m)
      | none, _ => .error (.keyError "budget_id")
      | some _, none => .error (.keyError "month") := by
  rcases h : args "budget_id" with _ | b <;> rcases h2 : args "month" with _ | a <;>
    simp +decide [executeToolReq, requireArg, h, h2, Bind.bind, Except.bind]

theorem exec_get_scheduled_transactions (args : Args) :
    executeToolReq "get_scheduled_transactions" args =
      match args "budget_id" with
      | some b => .ok (get_scheduled_transactions_endpoint b)
      | none => .error (.keyError "budget_id") := by
  rcases h : args "budget_id" with _ | b <;>
    simp +decide [executeToolReq, requireArg, h, Bind.bind, Except.bind]

theorem exec_get_scheduled_transaction (args : Args) :
    executeToolReq "get_scheduled_transaction" args =
      match args "budget_id", args "scheduled_transaction_id" with
      | some b, some s => .ok (get_scheduled_transaction_endpoint b s)
      | none, _ => .error (.keyError "budget_id")
      | some _, none => .error (.keyError "scheduled_transaction_id") := by
  rcases h : args "budget_id" with _ | b <;>
    rcases h2 : args "scheduled_transaction_id" with _ | a <;>
      simp +decide [executeToolReq, requireArg, h, h2, Bind.bind, Except.bind]

theorem exec_unknown (name : String) (args : Args) (h : name ∉ toolNames) :
    executeToolReq name args = .error (.valueError ("Unknown tool: " ++ name)) := by
  rw [toolNames_eq] at h
  simp only [List.mem_cons, List.not_mem_nil, or_false, not_or] at h
  obtain ⟨h1, h2, h3, h4, h5, h6, h7, h8, h9, h10, h11, h12, h13, h14, h15, h16, h17, h18⟩ := h
  simp [executeToolReq, h1, h2, h3, h4, h5, h6, h7, h8, h9, h10, h11, h12, h13, h14,
    h15, h16, h17, h18]

/-! ## Claim theorems -/

/-- Claim C2: `list_tools` returns exactly the eighteen tool descriptors of
the spec table — for each tool exactly the listed required parameters and
exactly the listed optional parameters, every parameter of semantic type
string, the optional `type` of `get_transactions` restricted to the enum
`uncategorized | unapproved` and no other parameter enum-restricted, every
required parameter declared among the schema properties, and all tool
identifiers unique. -/
theorem list_tools_matches_spec_table :
    list_tools.length = 18 ∧
    list_tools.map toolTableRow = specToolTable ∧
    (∀ t ∈ list_tools, ∀ p ∈ t.properties, p.ptype = "string") ∧
    (∀ t ∈ list_tools, ∀ p ∈ t.properties,
      p.enumVals = if t.name = "get_transactions" ∧ p.pname = "type" then
        some ["uncategorized", "unapproved"] else none) ∧
    (∀ t ∈ list_tools, ∀ k ∈ t.required, k ∈ t.properties.map ParamSpec.pname) ∧
    (list_tools.map Tool.name).Nodup := by
  refine ⟨rfl, rfl, ?_, ?_, ?_, ?_⟩ <;> decide

/-- Claim C10: supplying the empty string for an optional filter behaves
exactly as leaving it absent — the presence checks use Python string
truthiness, so `since_date=""` or `type=""` contributes no query parameter
in `get_transactions` and in the by-account / by-category / by-payee
transaction methods. -/
theorem empty_string_filter_behaves_as_absent :
    (∀ (b : String) (tf : Option String),
      get_transactions_endpoint b (some "") tf = get_transactions_endpoint b none tf) ∧
    (∀ (b : String) (sd : Option String),
      get_transactions_endpoint b sd (some "") = get_transactions_endpoint b sd none) ∧
    (∀ b a : String,
      get_transactions_by_account_endpoint b a (some "") =
        get_transactions_by_account_endpoint b a none) ∧
    (∀ b cat : String,
      get_transactions_by_category_endpoint b cat (some "") =
        get_transactions_by_category_endpoint b cat none) ∧
    (∀ b p : String,
      get_transactions_by_payee_endpoint b p (some "") =
        get_transactions_by_payee_endpoint b p none) := by
  refine ⟨fun b tf => ?_, fun b sd => ?_, fun b a => ?_, fun b cat => ?_, fun b p => ?_⟩ <;>
    simp [get_transactions_endpoint, get_transactions_by_account_endpoint,
      get_transactions_by_category_endpoint, get_transactions_by_payee_endpoint, truthy]

/-- Claim C7: constructing the gateway client (configuration loading plus
`YNABClient.__init__`, as `get_ynab_client` composes them) fails with the
configuration error exactly when the `YNAB_TOKEN` credential is missing or
empty; with a non-empty credential it succeeds, binding that token and the
(possibly defaulted) base URL. -/
theorem client_construction_requires_credential :
    ∀ env : Env,
      ((∃ m, get_ynab_client env = .error m) ↔ truthy (env "YNAB_TOKEN") = false) ∧
      (truthy (env "YNAB_TOKEN") = false →
        get_ynab_client env = .error ("YNAB_TOKEN environment variable is required. " ++
          "Please set it to your YNAB personal access token.")) ∧
      (∀ t : String, env "YNAB_TOKEN" = some t → t ≠ "" →
        get_ynab_client env = .ok { config :=
          { ynab_token := t
            ynab_base_url := (env "YNAB_BASE_URL").getD "https://api.ynab.com/v1" } }) := by
  intro env
  refine ⟨⟨fun ⟨m, hm⟩ => ?_, fun h => ⟨_, get_ynab_client_no_token env h⟩⟩,
    get_ynab_client_no_token env, fun t ht hne => ?_⟩
  · by_contra hfalse
    rw [Bool.not_eq_false] at hfalse
    rw [get_ynab_client_token env hfalse] at hm
    exact Except.noConfusion hm
  · have htr : truthy (env "YNAB_TOKEN") = true := by simp [truthy, ht, hne]
    rw [get_ynab_client_token env htr, ht]
    rfl

/-- Claim C8, counterexample: the session headers built by
`YNABClient.__init__` are exactly `Authorization` and `Content-Type`; at a
concrete constructed client no `Accept` header is set at all, refuting
"both Accept and Content-Type headers set to application/json". -/
theorem client_headers_no_accept_cex :
    (issuedRequest fixtureClient "/budgets").headers =
      [("Authorization", "Bearer token-1"), ("Content-Type", "application/json")] ∧
    List.lookup "Accept" (issuedRequest fixtureClient "/budgets").headers = none ∧
    List.lookup "Content-Type" (issuedRequest fixtureClient "/budgets").headers =
      some "application/json" := by
  refine ⟨rfl, rfl, rfl⟩

/-- Claim C8 as amended: every outbound request the gateway client issues
is a GET carrying a bearer `Authorization` header built from the configured
token, a `Content-Type: application/json` header and the fixed 30-second
per-request timeout; no `Accept` header is configured by the client (the
claimed "Accept: application/json" half does not hold). -/
theorem outbound_request_shape :
    ∀ (c : YNABClient) (endpoint : String),
      (issuedRequest c endpoint).method = "GET" ∧
      (issuedRequest c endpoint).headers =
        [("Authorization", "Bearer " ++ c.config.ynab_token),
         ("Content-Type", "application/json")] ∧
      List.lookup "Authorization" (issuedRequest c endpoint).headers =
        some ("Bearer " ++ c.config.ynab_token) ∧
      List.lookup "Content-Type" (issuedRequest c endpoint).headers =
        some "application/json" ∧
      List.lookup "Accept" (issuedRequest c endpoint).headers = none ∧
      (issuedRequest c endpoint).timeout = 30 ∧
      (∀ up : Upstream, (c._make_request up endpoint).1 = [issuedRequest c endpoint]) := by
  intro c endpoint
  exact ⟨rfl, rfl, rfl, rfl, rfl, rfl, fun up => rfl⟩

/-- Claim C4: every gateway method funnels through `_make_request`, and for
every endpoint an upstream response with status ≥ 400 becomes the uniform
`YNABClientError` whose message contains the numeric status code and the
response body text, while a transport-level failure becomes the uniform
error whose message contains the failure description and introduces no
digit (hence no HTTP status code) beyond those of the description itself. -/
theorem make_request_failure_classification :
    ∀ (c : YNABClient) (up : Upstream) (endpoint : String),
      (∀ r : HttpResponse, up (issuedRequest c endpoint) = .response r → 400 ≤ r.status →
        (c._make_request up endpoint).2 = .error { msg :=
            "YNAB API request failed with status " ++ toString r.status ++ ": " ++ r.text } ∧
        containsSub ("YNAB API request failed with status " ++
          toString r.status ++ ": " ++ r.text) (toString r.status) ∧
        containsSub ("YNAB API request failed with status " ++
          toString r.status ++ ": " ++ r.text) r.text) ∧
      (∀ d : String, up (issuedRequest c endpoint) = .failure d →
        (c._make_request up endpoint).2 = .error { msg := "YNAB API request failed: " ++ d } ∧
        containsSub ("YNAB API request failed: " ++ d) d ∧
        (noDigit d → noDigit ("YNAB API request failed: " ++ d))) := by
  intro c up endpoint
  constructor
  · intro r hr hst
    refine ⟨?_, ?_, ?_⟩
    · simp [YNABClient._make_request, hr, hst]
    · refine ⟨("YNAB API request failed with status " : String).data,
        (": " : String).data ++ r.text.data, ?_⟩
      simp [String.data_append, List.append_assoc]
    · refine ⟨("YNAB API request failed with status " ++
        toString r.status ++ ": " : String).data, [], ?_⟩
      simp [String.data_append, List.append_assoc]
  · intro d hd
    refine ⟨?_, ?_, ?_⟩
    · simp [YNABClient._make_request, hd]
    · exact ⟨("YNAB API request failed: " : String).data, [], by
        simp [String.data_append, List.append_assoc]⟩
    · intro hnd ch hch
      rw [String.data_append] at hch
      rcases List.mem_append.mp hch with hc | hc
      · have hlit : ∀ ch ∈ ("YNAB API request failed: " : String).data,
            ch.isDigit = false := by decide
        exact hlit ch hc
      · exact hnd ch hc

/-- Claim C5: `get_transactions` issues exactly one GET; with both optional
filters absent the endpoint is the bare transactions path with no query
string, and with filters supplied (non-empty) exactly the supplied ones are
appended after `?` as query parameters — `since_date` then `type`, never as
path segments — while an absent filter contributes nothing at all. -/
theorem get_transactions_query_filters :
    (∀ (c : YNABClient) (up : Upstream) (b : String) (sd tf : Option String),
      (YNABClient.get_transactions c up b sd tf).1 =
        [issuedRequest c (get_transactions_endpoint b sd tf)]) ∧
    (∀ b : String,
      get_transactions_endpoint b none none = "/budgets/" ++ b ++ "/transactions") ∧
    (∀ b d : String, d ≠ "" →
      get_transactions_endpoint b (some d) none =
        "/budgets/" ++ b ++ "/transactions" ++ "?" ++ ("since_date=" ++ d)) ∧
    (∀ b t : String, t ≠ "" →
      get_transactions_endpoint b none (some t) =
        "/budgets/" ++ b ++ "/transactions" ++ "?" ++ ("type=" ++ t)) ∧
    (∀ b d t : String, d ≠ "" → t ≠ "" →
      get_transactions_endpoint b (some d) (some t) =
        "/budgets/" ++ b ++ "/transactions" ++ "?" ++
          ("since_date=" ++ d ++ "&" ++ ("type=" ++ t))) := by
  refine ⟨fun c up b sd tf => rfl, fun b => ?_, fun b d hd => ?_, fun b t ht => ?_,
    fun b d t hd ht => ?_⟩
  · simp [get_transactions_endpoint, truthy]
  · simp [get_transactions_endpoint, truthy, joinParams, hd]
  · simp [get_transactions_endpoint, truthy, joinParams, ht]
  · simp [get_transactions_endpoint, truthy, joinParams, hd, ht]

/-- Claim C6: `get_budget("last-used")` inserts the sentinel verbatim into
the path — the endpoint is `/budgets/last-used`, no `?` occurs in it —
issues exactly that one GET, and on any success status returns the upstream
JSON body unmodified. -/
theorem get_budget_last_used_passthrough :
    get_budget_endpoint "last-used" = "/budgets/last-used" ∧
    '?' ∉ ("/budgets/last-used" : String).data ∧
    (∀ (c : YNABClient) (up : Upstream),
      (YNABClient.get_budget c up "last-used").1 = [issuedRequest c "/budgets/last-used"]) ∧
    (∀ (c : YNABClient) (up : Upstream) (r : HttpResponse),
      up (issuedRequest c "/budgets/last-used") = .response r → r.status < 400 →
      (YNABClient.get_budget c up "last-used").2 = .ok r.json) := by
  refine ⟨rfl, by decide, fun c up => rfl, fun c up r hr hst => ?_⟩
  simp [YNABClient.get_budget, YNABClient._make_request, get_budget_endpoint, hr,
    Nat.not_le.mpr hst]

/-- Claim C9: the success path of the shared request primitive (through
which every read-only method funnels) is a deterministic pass-through of
the upstream body: two calls with identical arguments against the same
fixed upstream yield the same parsed body, hence byte-identical serialized
payloads, and that body is exactly the JSON of the upstream response. -/
theorem read_only_method_deterministic_passthrough :
    ∀ (c : YNABClient) (up : Upstream) (endpoint : String) (j1 j2 : Json),
      (c._make_request up endpoint).2 = .ok j1 →
      (c._make_request up endpoint).2 = .ok j2 →
      format_response j1 = format_response j2 ∧
      ∃ r : HttpResponse, up (issuedRequest c endpoint) = .response r ∧
        j1 = r.json ∧ r.status < 400 := by
  intro c up endpoint j1 j2 h1 h2
  rw [h1] at h2
  injection h2 with hj
  subst hj
  refine ⟨rfl, ?_⟩
  cases hup : up (issuedRequest c endpoint) with
  | response r =>
      by_cases hst : 400 ≤ r.status
      · exfalso
        simp [YNABClient._make_request, hup, hst] at h1
      · have hok : r.json = j1 := by
          simpa [YNABClient._make_request, hup, hst] using h1
        exact ⟨r, rfl, hok.symm, Nat.lt_of_not_le hst⟩
  | failure d =>
      exfalso
      simp [YNABClient._make_request, hup] at h1

/-- Witness for claim C9 at a concrete client, upstream and endpoint. -/
theorem read_only_passthrough_witness :
    format_response (Json.obj [("data", Json.null)]) =
      format_response (Json.obj [("data", Json.null)]) ∧
    ∃ r : HttpResponse, fixtureUp200 (issuedRequest fixtureClient "/budgets") = .response r ∧
      Json.obj [("data", Json.null)] = r.json ∧ r.status < 400 :=
  read_only_method_deterministic_passthrough fixtureClient fixtureUp200 "/budgets"
    (Json.obj [("data", Json.null)]) (Json.obj [("data", Json.null)]) rfl rfl

/-- Claim C3: for every tool of the registry and every argument mapping,
dispatch fails with a missing-key condition — issuing no request, whatever
the upstream — exactly when some parameter declared required for that tool
is absent from the mapping; when every required parameter is present the
dispatcher resolves to the matching gateway client endpoint (optional
arguments passed through as looked up). -/
theorem dispatch_missing_required_key_iff :
    toolNames =
      ["get_budgets", "get_budget", "get_budget_settings", "get_accounts",
       "get_account", "get_categories", "get_category", "get_payees", "get_payee",
       "get_transactions", "get_transaction", "get_transactions_by_account",
       "get_transactions_by_category", "get_transactions_by_payee", "get_months",
       "get_month", "get_scheduled_transactions", "get_scheduled_transaction"] ∧
    (∀ (name : String) (args : Args) (e : PyError),
      executeToolReq name args = .error e →
      ∀ (c : YNABClient) (up : Upstream), _execute_tool c up name args = ([], .error e)) ∧
    (∀ args : Args, executeToolReq "get_budgets" args = .ok get_budgets_endpoint) ∧
    (∀ args : Args,
      ((∃ k, executeToolReq "get_budget" args = .error (.keyError k)) ↔
        args "budget_id" = none) ∧
      (∀ b, args "budget_id" = some b →
        executeToolReq "get_budget" args = .ok (get_budget_endpoint b))) ∧
    (∀ args : Args,
      ((∃ k, executeToolReq "get_budget_settings" args = .error (.keyError k)) ↔
        args "budget_id" = none) ∧
      (∀ b, args "budget_id" = some b →
        executeToolReq "get_budget_settings" args = .ok (get_budget_settings_endpoint b))) ∧
    (∀ args : Args,
      ((∃ k, executeToolReq "get_accounts" args = .error (.keyError k)) ↔
        args "budget_id" = none) ∧
      (∀ b, args "budget_id" = some b →
        executeToolReq "get_accounts" args = .ok (get_accounts_endpoint b))) ∧
    (∀ args : Args,
      ((∃ k, executeToolReq "get_account" args = .error (.keyError k)) ↔
        (args "budget_id" = none ∨ args "account_id" = none)) ∧
      (∀ b v, args "budget_id" = some b → args "account_id" = some v →
        executeToolReq "get_account" args = .ok (get_account_endpoint b v))) ∧
    (∀ args : Args,
      ((∃ k, executeToolReq "get_categories" args = .error (.keyError k)) ↔
        args "budget_id" = none) ∧
      (∀ b, args "budget_id" = some b →
        executeToolReq "get_categories" args = .ok (get_categories_endpoint b))) ∧
    (∀ args : Args,
      ((∃ k, executeToolReq "get_category" args = .error (.keyError k)) ↔
        (args "budget_id" = none ∨ args "category_id" = none)) ∧
      (∀ b v, args "budget_id" = some b → args "category_id" = some v →
        executeToolReq "get_category" args = .ok (get_category_endpoint b v))) ∧
    (∀ args : Args,
      ((∃ k, executeToolReq "get_payees" args = .error (.keyError k)) ↔
        args "budget_id" = none) ∧
      (∀ b, args "budget_id" = some b →
        executeToolReq "get_payees" args = .ok (get_payees_endpoint b))) ∧
    (∀ args : Args,
      ((∃ k, executeToolReq "get_payee" args = .error (.keyError k)) ↔
        (args "budget_id" = none ∨ args "payee_id" = none)) ∧
      (∀ b v, args "budget_id" = some b → args "payee_id" = some v →
        executeToolReq "get_payee" args = .ok (get_payee_endpoint b v))) ∧
    (∀ args : Args,
      ((∃ k, executeToolReq "get_transactions" args = .error (.keyError k)) ↔
        args "budget_id" = none) ∧
      (∀ b, args "budget_id" = some b →
        executeToolReq "get_transactions" args =
          .ok (get_transactions_endpoint b (args "since_date") (args "type")))) ∧
    (∀ args : Args,
      ((∃ k, executeToolReq "get_transaction" args = .error (.keyError k)) ↔
        (args "budget_id" = none ∨ args "transaction_id" = none)) ∧
      (∀ b v, args "budget_id" = some b → args "transaction_id" = some v →
        executeToolReq "get_transaction" args = .ok (get_transaction_endpoint b v))) ∧
    (∀ args : Args,
      ((∃ k, executeToolReq "get_transactions_by_account" args = .error (.keyError k)) ↔
        (args "budget_id" = none ∨ args "account_id" = none)) ∧
      (∀ b v, args "budget_id" = some b → args "account_id" = some v →
        executeToolReq "get_transactions_by_account" args = .ok (get_transactions_by_account_endpoint b v (args "since_date")))) ∧
    (∀ args : Args,
      ((∃ k, executeToolReq "get_transactions_by_category" args = .error (.keyError k)) ↔
        (args "budget_id" = none ∨ args "category_id" = none)) ∧
      (∀ b v, args "budget_id" = some b → args "category_id" = some v →
        executeToolReq "get_transactions_by_category" args = .ok (get_transactions_by_category_endpoint b v (args "since_date")))) ∧
    (∀ args : Args,
      ((∃ k, executeToolReq "get_transactions_by_payee" args = .error (.keyError k)) ↔
        (args "budget_id" = none ∨ args "payee_id" = none)) ∧
      (∀ b v, args "budget_id" = some b → args "payee_id" = some v →
        executeToolReq "get_transactions_by_payee" args = .ok (get_transactions_by_payee_endpoint b v (args "since_date")))) ∧
    (∀ args : Args,
      ((∃ k, executeToolReq "get_months" args = .error (.keyError k)) ↔
        args "budget_id" = none) ∧
      (∀ b, args "budget_id" = some b →
        executeToolReq "get_months" args = .ok (get_months_endpoint b))) ∧
    (∀ args : Args,
      ((∃ k, executeToolReq "get_month" args = .error (.keyError k)) ↔
        (args "budget_id" = none ∨ args "month" = none)) ∧
      (∀ b v, args "budget_id" = some b → args "month" = some v →
        executeToolReq "get_month" args = .ok (get_month_endpoint b v))) ∧
    (∀ args : Args,
      ((∃ k, executeToolReq "get_scheduled_transactions" args = .error (.keyError k)) ↔
        args "budget_id" = none) ∧
      (∀ b, args "budget_id" = some b →
        executeToolReq "get_scheduled_transactions" args = .ok (get_scheduled_transactions_endpoint b))) ∧
    (∀ args : Args,
      ((∃ k, executeToolReq "get_scheduled_transaction" args = .error (.keyError k)) ↔
        (args "budget_id" = none ∨ args "scheduled_transaction_id" = none)) ∧
      (∀ b v, args "budget_id" = some b → args "scheduled_transaction_id" = some v →
        executeToolReq "get_scheduled_transaction" args = .ok (get_scheduled_transaction_endpoint b v))) := by
  refine ⟨toolNames_eq, ?_, exec_get_budgets,  ?_, ?_, ?_, ?_, ?_, ?_, ?_, ?_, ?_, ?_, ?_, ?_, ?_, ?_, ?_, ?_, ?_⟩
  · intro name args e h c up
    simp [_execute_tool, h]
  · intro args
    rcases h : args "budget_id" with _ | b <;> simp [exec_get_budget args, h]
  · intro args
    rcases h : args "budget_id" with _ | b <;> simp [exec_get_budget_settings args, h]
  · intro args
    rcases h : args "budget_id" with _ | b <;> simp [exec_get_accounts args, h]
  · intro args
    rcases h : args "budget_id" with _ | b <;> rcases h2 : args "account_id" with _ | a <;>
      simp [exec_get_account args, h, h2]
  · intro args
    rcases h : args "budget_id" with _ | b <;> simp [exec_get_categories args, h]
  · intro args
    rcases h : args "budget_id" with _ | b <;> rcases h2 : args "category_id" with _ | a <;>
      simp [exec_get_category args, h, h2]
  · intro args
    rcases h : args "budget_id" with _ | b <;> simp [exec_get_payees args, h]
  · intro args
    rcases h : args "budget_id" with _ | b <;> rcases h2 : args "payee_id" with _ | a <;>
      simp [exec_get_payee args, h, h2]
  · intro args
    rcases h : args "budget_id" with _ | b <;> simp [exec_get_transactions args, h]
  · intro args
    rcases h : args "budget_id" with _ | b <;> rcases h2 : args "transaction_id" with _ | a <;>
      simp [exec_get_transaction args, h, h2]
  · intro args
    rcases h : args "budget_id" with _ | b <;> rcases h2 : args "account_id" with _ | a <;>
      simp [exec_get_transactions_by_account args, h, h2]
  · intro args
    rcases h : args "budget_id" with _ | b <;> rcases h2 : args "category_id" with _ | a <;>
      simp [exec_get_transactions_by_category args, h, h2]
  · intro args
    rcases h : args "budget_id" with _ | b <;> rcases h2 : args "payee_id" with _ | a <;>
      simp [exec_get_transactions_by_payee args, h, h2]
  · intro args
    rcases h : args "budget_id" with _ | b <;> simp [exec_get_months args, h]
  · intro args
    rcases h : args "budget_id" with _ | b <;> rcases h2 : args "month" with _ | a <;>
      simp [exec_get_month args, h, h2]
  · intro args
    rcases h : args "budget_id" with _ | b <;> simp [exec_get_scheduled_transactions args, h]
  · intro args
    rcases h : args "budget_id" with _ | b <;> rcases h2 : args "scheduled_transaction_id" with _ | a <;>
      simp [exec_get_scheduled_transaction args, h, h2]

/-- For a registered tool name, dispatch either resolves an endpoint or
fails with a key error: it never produces a `ValueError`. -/
theorem exec_registered_shape (name : String) (hn : name ∈ toolNames) (args : Args) :
    (∃ ep, executeToolReq name args = .ok ep) ∨
    (∃ k, executeToolReq name args = .error (.keyError k)) := by
  rw [toolNames_eq] at hn
  simp only [List.mem_cons, List.not_mem_nil, or_false] at hn
  rcases hn with rfl | rfl | rfl | rfl | rfl | rfl | rfl | rfl | rfl | rfl | rfl | rfl | rfl | rfl | rfl | rfl | rfl | rfl
  · exact Or.inl ⟨_, exec_get_budgets args⟩
  · rcases h : args "budget_id" with _ | b
    · exact Or.inr ⟨"budget_id", by rw [exec_get_budget args, h]⟩
    · exact Or.inl ⟨_, by rw [exec_get_budget args, h]⟩
  · rcases h : args "budget_id" with _ | b
    · exact Or.inr ⟨"budget_id", by rw [exec_get_budget_settings args, h]⟩
    · exact Or.inl ⟨_, by rw [exec_get_budget_settings args, h]⟩
  · rcases h : args "budget_id" with _ | b
    · exact Or.inr ⟨"budget_id", by rw [exec_get_accounts args, h]⟩
    · exact Or.inl ⟨_, by rw [exec_get_accounts args, h]⟩
  · rcases h : args "budget_id" with _ | b
    · exact Or.inr ⟨"budget_id", by rw [exec_get_account args, h]⟩
    · rcases h2 : args "account_id" with _ | a
      · exact Or.inr ⟨"account_id", by rw [exec_get_account args, h, h2]⟩
      · exact Or.inl ⟨_, by rw [exec_get_account args, h, h2]⟩
  · rcases h : args "budget_id" with _ | b
    · exact Or.inr ⟨"budget_id", by rw [exec_get_categories args, h]⟩
    · exact Or.inl ⟨_, by rw [exec_get_categories args, h]⟩
  · rcases h : args "budget_id" with _ | b
    · exact Or.inr ⟨"budget_id", by rw [exec_get_category args, h]⟩
    · rcases h2 : args "category_id" with _ | a
      · exact Or.inr ⟨"category_id", by rw [exec_get_category args, h, h2]⟩
      · exact Or.inl ⟨_, by rw [exec_get_category args, h, h2]⟩
  · rcases h : args "budget_id" with _ | b
    · exact Or.inr ⟨"budget_id", by rw [exec_get_payees args, h]⟩
    · exact Or.inl ⟨_, by rw [exec_get_payees args, h]⟩
  · rcases h : args "budget_id" with _ | b
    · exact Or.inr ⟨"budget_id", by rw [exec_get_payee args, h]⟩
    · rcases h2 : args "payee_id" with _ | a
      · exact Or.inr ⟨"payee_id", by rw [exec_get_payee args, h, h2]⟩
      · exact Or.inl ⟨_, by rw [exec_get_payee args, h, h2]⟩
  · rcases h : args "budget_id" with _ | b
    · exact Or.inr ⟨"budget_id", by rw [exec_get_transactions args, h]⟩
    · exact Or.inl ⟨_, by rw [exec_get_transactions args, h]⟩
  · rcases h : args "budget_id" with _ | b
    · exact Or.inr ⟨"budget_id", by rw [exec_get_transaction args, h]⟩
    · rcases h2 : args "transaction_id" with _ | a
      · exact Or.inr ⟨"transaction_id", by rw [exec_get_transaction args, h, h2]⟩
      · exact Or.inl ⟨_, by rw [exec_get_transaction args, h, h2]⟩
  · rcases h : args "budget_id" with _ | b
    · exact Or.inr ⟨"budget_id", by rw [exec_get_transactions_by_account args, h]⟩
    · rcases h2 : args "account_id" with _ | a
      · exact Or.inr ⟨"account_id", by rw [exec_get_transactions_by_account args, h, h2]⟩
      · exact Or.inl ⟨_, by rw [exec_get_transactions_by_account args, h, h2]⟩
  · rcases h : args "budget_id" with _ | b
    · exact Or.inr ⟨"budget_id", by rw [exec_get_transactions_by_category args, h]⟩
    · rcases h2 : args "category_id" with _ | a
      · exact Or.inr ⟨"category_id", by rw [exec_get_transactions_by_category args, h, h2]⟩
      · exact Or.inl ⟨_, by rw [exec_get_transactions_by_category args, h, h2]⟩
  · rcases h : args "budget_id" with _ | b
    · exact Or.inr ⟨"budget_id", by rw [exec_get_transactions_by_payee args, h]⟩
    · rcases h2 : args "payee_id" with _ | a
      · exact Or.inr ⟨"payee_id", by rw [exec_get_transactions_by_payee args, h, h2]⟩
      · exact Or.inl ⟨_, by rw [exec_get_transactions_by_payee args, h, h2]⟩
  · rcases h : args "budget_id" with _ | b
    · exact Or.inr ⟨"budget_id", by rw [exec_get_months args, h]⟩
    · exact Or.inl ⟨_, by rw [exec_get_months args, h]⟩
  · rcases h : args "budget_id" with _ | b
    · exact Or.inr ⟨"budget_id", by rw [exec_get_month args, h]⟩
    · rcases h2 : args "month" with _ | a
      · exact Or.inr ⟨"month", by rw [exec_get_month args, h, h2]⟩
      · exact Or.inl ⟨_, by rw [exec_get_month args, h, h2]⟩
  · rcases h : args "budget_id" with _ | b
    · exact Or.inr ⟨"budget_id", by rw [exec_get_scheduled_transactions args, h]⟩
    · exact Or.inl ⟨_, by rw [exec_get_scheduled_transactions args, h]⟩
  · rcases h : args "budget_id" with _ | b
    · exact Or.inr ⟨"budget_id", by rw [exec_get_scheduled_transaction args, h]⟩
    · rcases h2 : args "scheduled_transaction_id" with _ | a
      · exact Or.inr ⟨"scheduled_transaction_id", by rw [exec_get_scheduled_transaction args, h, h2]⟩
      · exact Or.inl ⟨_, by rw [exec_get_scheduled_transaction args, h, h2]⟩

/-- Executing a registered tool never raises a `ValueError`. -/
theorem execute_tool_no_valueError (c : YNABClient) (up : Upstream) (name : String)
    (args : Args) (hn : name ∈ toolNames) (m : String) :
    (_execute_tool c up name args).2 ≠ .error (.valueError m) := by
  intro hcontra
  rcases exec_registered_shape name hn args with ⟨ep, hep⟩ | ⟨k, hk⟩
  · simp only [_execute_tool, hep] at hcontra
    cases hres : (c._make_request up ep).2 <;>
      simp [hres, Except.mapError] at hcontra
  · simp [_execute_tool, hk] at hcontra

/-- Claim C1, counterexample: with a valid credential present, dispatching
an unknown tool name yields a payload with the `Configuration Error: `
prefix — not the `Error: ` prefix the claim assigns to the unknown-tool
condition, refuting "Configuration Error: exactly when the credential is
missing or empty". -/
theorem call_tool_unknown_tool_config_text_cex :
    call_tool envOk fixtureUpFail "frobnicate" noArgs =
      "Configuration Error: Unknown tool: frobnicate" ∧
    truthy (envOk "YNAB_TOKEN") = true ∧
    ¬ leadsWith "Error: " (call_tool envOk fixtureUpFail "frobnicate" noArgs) ∧
    leadsWith "Configuration Error: " (call_tool envOk fixtureUpFail "frobnicate" noArgs) := by
  have hpayload : call_tool envOk fixtureUpFail "frobnicate" noArgs =
      "Configuration Error: " ++ "Unknown tool: frobnicate" := rfl
  refine ⟨rfl, rfl, ?_, ?_⟩
  · rw [hpayload]
    exact not_leadsWith_error_of_config "Unknown tool: frobnicate"
  · rw [hpayload]
    exact leadsWith_self_append "Configuration Error: " "Unknown tool: frobnicate"

/-- Claim C1 as amended: for every environment, upstream, tool name and
argument mapping, `call_tool` converts every outcome of its `try` block to
a textual payload (success serialization or an error text, nothing
propagates); an error payload carries the `Configuration Error: ` prefix
exactly when the underlying exception is a `ValueError` and the `Error: `
prefix otherwise; and a `ValueError` arises exactly when the credential is
missing or empty, or the tool name is not in the registry — so the
unknown-tool condition also surfaces as `Configuration Error: `, while
gateway errors and missing-argument errors surface as `Error: `. -/
theorem call_tool_error_text_classification :
    ∀ (env : Env) (up : Upstream) (name : String) (args : Args),
      ((∃ j, (callToolInner env up name args).2 = .ok j ∧
          call_tool env up name args = format_response j) ∨
       (∃ e, (callToolInner env up name args).2 = .error e ∧
          call_tool env up name args = errorPayload e)) ∧
      (∀ e, (callToolInner env up name args).2 = .error e →
        (leadsWith "Configuration Error: " (call_tool env up name args) ↔
          e.isValueError = true) ∧
        (leadsWith "Error: " (call_tool env up name args) ↔
          e.isValueError = false)) ∧
      ((∃ m, (callToolInner env up name args).2 = .error (.valueError m)) ↔
        (truthy (env "YNAB_TOKEN") = false ∨ name ∉ toolNames)) := by
  intro env up name args
  refine ⟨?_, ?_, ?_⟩
  · cases hres : (callToolInner env up name args).2 with
    | ok j => exact Or.inl ⟨j, rfl, by simp [call_tool, hres]⟩
    | error e => exact Or.inr ⟨e, rfl, by simp [call_tool, hres]⟩
  · intro e he
    have hc : call_tool env up name args = errorPayload e := by
      simp [call_tool, he]
    rw [hc]
    cases e with
    | ynab m =>
        simp only [errorPayload, PyError.isValueError]
        exact ⟨iff_of_false (not_leadsWith_config_of_error m) (by simp),
          iff_of_true (leadsWith_self_append "Error: " m) trivial⟩
    | valueError m =>
        simp only [errorPayload, PyError.isValueError]
        exact ⟨iff_of_true (leadsWith_self_append "Configuration Error: " m) trivial,
          iff_of_false (not_leadsWith_error_of_config m) (by simp)⟩
    | keyError k =>
        simp only [errorPayload, PyError.isValueError]
        exact ⟨iff_of_false (not_leadsWith_config_of_error (pyQuote ++ k ++ pyQuote))
            (by simp),
          iff_of_true (leadsWith_self_append "Error: " (pyQuote ++ k ++ pyQuote)) trivial⟩
  · by_cases htok : truthy (env "YNAB_TOKEN") = false
    · have hcfg := get_ynab_client_no_token env htok
      refine iff_of_true ⟨"YNAB_TOKEN environment variable is required. " ++
        "Please set it to your YNAB personal access token.", ?_⟩ (Or.inl htok)
      simp [callToolInner, hcfg]
    · rw [Bool.not_eq_false] at htok
      obtain ⟨c, hcli⟩ : ∃ c, get_ynab_client env = .ok c :=
        ⟨_, get_ynab_client_token env htok⟩
      have hinner : callToolInner env up name args = _execute_tool c up name args := by
        simp [callToolInner, hcli]
      by_cases hm : name ∈ toolNames
      · refine iff_of_false ?_ ?_
        · rintro ⟨m, hm2⟩
          rw [hinner] at hm2
          exact execute_tool_no_valueError c up name args hm m hm2
        · rintro (hf | hf)
          · rw [htok] at hf
            exact Bool.noConfusion hf
          · exact hf hm
      · have hex := exec_unknown name args hm
        refine iff_of_true ⟨"Unknown tool: " ++ name, ?_⟩ (Or.inr hm)
        rw [hinner]
        simp [_execute_tool, hex]

/-! ## Concrete evaluations of the model -/

theorem eval_call_tool_success :
    call_tool envOk fixtureUp200 "get_budgets" noArgs =
      format_response (Json.obj [("data", Json.null)]) := rfl

theorem eval_call_tool_http_error :
    call_tool envOk fixtureUp404 "get_budgets" noArgs =
      "Error: YNAB API request failed with status 404: not found" := rfl

theorem eval_call_tool_transport_error :
    call_tool envOk fixtureUpFail "get_budgets" noArgs =
      "Error: YNAB API request failed: connection refused" := rfl

theorem eval_call_tool_missing_key :
    call_tool envOk fixtureUp200 "get_budget" noArgs =
      "Error: " ++ (pyQuote ++ "budget_id" ++ pyQuote) := rfl

theorem eval_call_tool_no_credential :
    call_tool envBare fixtureUp200 "get_budgets" noArgs =
      "Configuration Error: YNAB_TOKEN environment variable is required. " ++
        "Please set it to your YNAB personal access token." := rfl

theorem eval_get_transactions_endpoint_both_filters :
    get_transactions_endpoint "budget-1" (some "2024-01-01") (some "uncategorized") =
      "/budgets/budget-1/transactions?since_date=2024-01-01&type=uncategorized" := rfl

theorem eval_get_transactions_endpoint_no_filters :
    get_transactions_endpoint "budget-1" none none =
      "/budgets/budget-1/transactions" := rfl
